import Mathlib

set_option autoImplicit false

/-!
Shallow embedding of the lifecycle-orchestration core of `testcontainers`
(files `src/testcontainers/src/clients/http.rs` and
`src/testcontainers/src/core/container_async.rs`), together with theorems
settling the specification claims about it.

Conventions: Rust panics and `unwrap()` on errors are modelled as the
`Except.error`/failure branch carrying the panic message; async calls are
modelled as pure functions over the sequence of engine responses they would
observe; machine integers (`u16`, `u64`) stay well inside their ranges here
and are modelled as `Nat`.
-/

namespace Testcontainers

/-- `env::Command`, the cleanup policy: `Remove` tears resources down, `Keep`
leaves them running. -/
inductive Command where
  | Remove
  | Keep
deriving DecidableEq, Repr

/-! ## Health-check state (bollard models used by `block_until_ready`) -/

/-- `bollard::models::HealthStatusEnum` (the variants matched in
`container_async.rs`). -/
inductive HealthStatusEnum where
  | EMPTY
  | NONE
  | HEALTHY
  | UNHEALTHY
  | STARTING
deriving DecidableEq, Repr

/-- The `health` field of a container state: `status` is optional. -/
structure Health where
  status : Option HealthStatusEnum := none
deriving DecidableEq, Repr

/-- The `state` field of an inspect response: `health` is optional. -/
structure ContainerState where
  health : Option Health := none
deriving DecidableEq, Repr

/-- `bollard::models::ContainerInspectResponse`, restricted to the `state`
field read by the health-check wait. -/
structure ContainerInspectResponse where
  state : Option ContainerState := none
deriving DecidableEq, Repr

/-- Outcome of a wait: success or a fatal panic, each recording how many
100ms backoff sleeps were performed before termination. -/
inductive WaitOutcome where
  | success (sleeps : Nat)
  | fatal (sleeps : Nat) (msg : String)
deriving DecidableEq, Repr

/-- The `WaitFor::Healthcheck` arm of `ContainerAsync::block_until_ready`
(`container_async.rs` lines 245-267), translated statement by statement.
The input list is the sequence of inspect responses the engine would return
to successive polls. Inside the `loop`, the `match` on the health status
breaks on `HEALTHY`, panics on missing/`EMPTY`/`NONE` and on `UNHEALTHY`,
and sleeps 100ms on `STARTING`; control then reaches the unconditional
`panic!("Healthcheck for the container is not configured")` placed after the
`match` as the last statement of the loop body, so a `STARTING` iteration
never loops back: it sleeps once and then panics. The loop therefore reads
at most one element of the list. An empty list models an engine that never
answers the first poll. -/
def healthcheck_wait (sleeps : Nat) : List ContainerInspectResponse → WaitOutcome
  | [] => .fatal sleeps "no inspect response available"
  | r :: _rest =>
    match r.state with
    | none => .fatal sleeps "Container state not available"
    | some st =>
      match st.health with
      | none => .fatal sleeps "Health state not available"
      | some h =>
        match h.status with
        | some .HEALTHY => .success sleeps
        | none => .fatal sleeps "Healthcheck not configured for container"
        | some .EMPTY => .fatal sleeps "Healthcheck not configured for container"
        | some .NONE => .fatal sleeps "Healthcheck not configured for container"
        | some .UNHEALTHY => .fatal sleeps "Healthcheck reports unhealthy"
        | some .STARTING => .fatal (sleeps + 1) "Healthcheck for the container is not configured"

/-- Modelled from the spec: the Healthcheck wait as section 4.2 describes it,
for comparison with the code. On `STARTING` it sleeps the fixed 100ms backoff
and retries the poll (reads the next inspect response); the other statuses map
as in the code. This is the behaviour the code would have without the
unconditional panic after the `match`. -/
def healthcheck_wait_spec (sleeps : Nat) : List ContainerInspectResponse → WaitOutcome
  | [] => .fatal sleeps "no inspect response available"
  | r :: rest =>
    match r.state with
    | none => .fatal sleeps "Container state not available"
    | some st =>
      match st.health with
      | none => .fatal sleeps "Health state not available"
      | some h =>
        match h.status with
        | some .HEALTHY => .success sleeps
        | none => .fatal sleeps "Healthcheck not configured for container"
        | some .EMPTY => .fatal sleeps "Healthcheck not configured for container"
        | some .NONE => .fatal sleeps "Healthcheck not configured for container"
        | some .UNHEALTHY => .fatal sleeps "Healthcheck reports unhealthy"
        | some .STARTING => healthcheck_wait_spec (sleeps + 1) rest

/-- An inspect response whose health status is the given one. -/
def inspect_with_status (s : HealthStatusEnum) : ContainerInspectResponse :=
  { state := some { health := some { status := some s } } }

/-- An inspect response whose state carries no health information at all. -/
def inspect_no_health : ContainerInspectResponse :=
  { state := some { health := some { status := none } } }

/-- C1: the claimed status map holds for healthy/unhealthy/missing, but the
retry on `STARTING` does not: against the poll sequence
`[STARTING, STARTING, HEALTHY]` the code performs one 100ms sleep and then
dies on the unconditional panic after the `match`, instead of retrying and
succeeding after two backoff cycles as the spec model
`healthcheck_wait_spec` (and the claim) prescribe. -/
theorem healthcheck_starting_panics :
    healthcheck_wait 0 [inspect_with_status .HEALTHY] = .success 0
  ∧ healthcheck_wait 0 [inspect_with_status .UNHEALTHY]
      = .fatal 0 "Healthcheck reports unhealthy"
  ∧ healthcheck_wait 0 [inspect_no_health]
      = .fatal 0 "Healthcheck not configured for container"
  ∧ healthcheck_wait 0
        [inspect_with_status .STARTING, inspect_with_status .STARTING,
         inspect_with_status .HEALTHY]
      = .fatal 1 "Healthcheck for the container is not configured"
  ∧ healthcheck_wait_spec 0
        [inspect_with_status .STARTING, inspect_with_status .STARTING,
         inspect_with_status .HEALTHY]
      = .success 2 :=
  ⟨rfl, rfl, rfl, rfl, rfl⟩

/-! ## Create with pull-and-retry (`Http::run`, http.rs lines 164-193) -/

/-- `bollard::errors::Error`, restricted to the distinction `Http::run`
makes: a `DockerResponseServerError` with its status code and message,
versus every other error. -/
inductive BollardError where
  | dockerResponseServerError (status_code : Nat) (message : String)
  | other (message : String)
deriving DecidableEq, Repr

/-- The message a panic on this error would carry. -/
def BollardError.display : BollardError → String
  | .dockerResponseServerError code msg =>
      "Docker responded with status code " ++ toString code ++ ": " ++ msg
  | .other msg => msg

/-- The pattern `Err(DockerResponseServerError { status_code: 404, .. })`
of the match in `Http::run`: the engine reported "image not found". -/
def is_image_not_found : BollardError → Bool
  | .dockerResponseServerError code _ => code == 404
  | .other _ => false

/-- `bollard::models::ContainerCreateResponse`, restricted to the `id`
field read by `Http::run`. -/
structure ContainerCreateResponse where
  id : String
deriving DecidableEq, Repr

/-- The `while let Some(result) = pulling.next().await` loop over the pull
progress stream: every event is consumed; the first error event is
`unwrap()`ed, i.e. fatal. Returns that first error, if any. -/
def first_pull_error : List (Except BollardError Unit) → Option BollardError
  | [] => none
  | .ok _ :: rest => first_pull_error rest
  | .error e :: _ => some e

/-- Result of the create-container step: the container id on success or the
panic message, plus whether the image-pull block ran. -/
structure CreateStepResult where
  result : Except String String
  pulled : Bool
deriving Repr

/-- The create-or-pull-and-retry block of `Http::run` (http.rs 164-193).
`first` is the engine's response to the first `create_container` call,
`pull_events` the progress stream `create_image` would produce, and `second`
the engine's response to the retried `create_container`. A first-call
`DockerResponseServerError` with status 404 enters the pull block (fatal on
the first errored progress event) and then retries create exactly once,
`unwrap()`ing the result; any other first-call error panics immediately. -/
def create_with_retry (first : Except BollardError ContainerCreateResponse)
    (pull_events : List (Except BollardError Unit))
    (second : Except BollardError ContainerCreateResponse) : CreateStepResult :=
  match first with
  | .ok c => { result := .ok c.id, pulled := false }
  | .error e =>
    if is_image_not_found e then
      match first_pull_error pull_events with
      | some pe => { result := .error pe.display, pulled := true }
      | none =>
        match second with
        | .ok c => { result := .ok c.id, pulled := true }
        | .error e2 => { result := .error e2.display, pulled := true }
    else
      { result := .error e.display, pulled := false }

/-- C2: a successful first create needs no pull; a 404 (image not found)
first create pulls and retries exactly once, the retried create's outcome
deciding the run (any retry error — a second 404 included — is fatal); a
pull error is fatal; and any non-404 first create error is fatal with no
pull and no retry (the outcome does not even depend on the pull stream or
the retry response). -/
theorem create_with_retry_spec (c : ContainerCreateResponse)
    (p p2 : List (Except BollardError Unit))
    (s s2 : Except BollardError ContainerCreateResponse)
    (e e2 pe : BollardError) (m : String) :
    (create_with_retry (.ok c) p s = { result := .ok c.id, pulled := false })
  ∧ (first_pull_error p = none →
      create_with_retry (.error (.dockerResponseServerError 404 m)) p (.ok c)
        = { result := .ok c.id, pulled := true })
  ∧ (first_pull_error p = none →
      create_with_retry (.error (.dockerResponseServerError 404 m)) p (.error e2)
        = { result := .error e2.display, pulled := true })
  ∧ (first_pull_error p = some pe →
      create_with_retry (.error (.dockerResponseServerError 404 m)) p s
        = { result := .error pe.display, pulled := true })
  ∧ (is_image_not_found e = false →
      create_with_retry (.error e) p s = create_with_retry (.error e) p2 s2
      ∧ create_with_retry (.error e) p s
          = { result := .error e.display, pulled := false }) := by
  refine ⟨rfl, ?_, ?_, ?_, ?_⟩
  · intro h
    simp [create_with_retry, is_image_not_found, h]
  · intro h
    simp [create_with_retry, is_image_not_found, h]
  · intro h
    simp [create_with_retry, is_image_not_found, h]
  · intro h
    constructor <;> simp [create_with_retry, h]

/-- Concrete run of `create_with_retry_spec`: a 404 first create with a
clean two-event pull stream and a successful retry yields the retried
container id with the pull performed. -/
theorem create_with_retry_spec_witness :
    create_with_retry
        (.error (.dockerResponseServerError 404 "no such image"))
        [.ok (), .ok ()] (.ok { id := "c1" })
      = { result := .ok "c1", pulled := true } :=
  (create_with_retry_spec { id := "c1" } [.ok (), .ok ()] []
      (.ok { id := "c1" }) (.ok { id := "c1" })
      (.other "x") (.other "x") (.other "x") "no such image").2.1 rfl

/-! ## Handle teardown (`ContainerAsync::rm`, `drop_async`, `impl Drop`) -/

/-- `bollard::container::RemoveContainerOptions`; its `Default` sets every
flag to `false`. -/
structure RemoveContainerOptions where
  force : Bool := false
  v : Bool := false
  link : Bool := false
deriving DecidableEq, Repr

/-- One `remove_container` call as the engine sees it: the container id and
the options sent along. -/
structure RemoveRequest where
  id : String
  options : RemoveContainerOptions
deriving DecidableEq, Repr

/-- `Http::rm` (http.rs 334-347): `remove_container` with
`force: true, v: true` and the remaining options at their defaults. -/
def http_rm (id : String) : RemoveRequest :=
  { id := id, options := { force := true, v := true } }

/-- `ContainerAsync::drop_async` (container_async.rs 161-168): under
`Remove` it issues the client's `rm`; under `Keep` it does nothing. -/
def drop_async (command : Command) (id : String) : List RemoveRequest :=
  match command with
  | .Remove => [http_rm id]
  | .Keep => []

/-- The body of `ContainerAsync::rm` (container_async.rs 155-159): it
unconditionally issues the client's `rm`, whatever the policy. -/
def rm_body (id : String) : List RemoveRequest := [http_rm id]

/-- How a handle is released: by an explicit `rm(self)` call, or implicitly
when it goes out of scope. -/
inductive ReleasePath where
  | explicitRm
  | scopeEnd
deriving DecidableEq, Repr

/-- The removal requests the engine sees for one handle along a release
path. `rm` takes `self` by value and does not `mem::forget` it, so when the
`rm` body finishes, `self` goes out of scope inside `rm` and
`impl Drop for ContainerAsync` (container_async.rs 276-283) still runs
`drop_async`; a plain scope end runs only `drop_async`. -/
def release_requests : ReleasePath → Command → String → List RemoveRequest
  | .explicitRm, command, id => rm_body id ++ drop_async command id
  | .scopeEnd, command, id => drop_async command id

/-- C3: the exactly-once teardown claim fails on the explicit path. An
explicit `rm` of a handle under `Remove` policy makes the engine see the
same removal twice — once from the `rm` body and once again from `Drop`
when `self` dies at the end of `rm` — while the implicit path behaves as
claimed (one removal under `Remove`, none under `Keep`). -/
theorem rm_remove_policy_double_removal :
    release_requests .explicitRm .Remove "container-1"
      = [http_rm "container-1", http_rm "container-1"]
  ∧ (release_requests .explicitRm .Remove "container-1").length = 2
  ∧ release_requests .scopeEnd .Remove "container-1" = [http_rm "container-1"]
  ∧ release_requests .scopeEnd .Keep "container-1" = [] :=
  ⟨rfl, rfl, rfl, rfl⟩

/-- C10: every container removal a handle ever issues — explicit `rm` as
well as policy-gated teardown at scope end — goes through `Http::rm` and so
asks the engine for a forced removal that also deletes the container's
volumes (`force = true`, `v = true`). -/
theorem release_requests_force_and_volumes (path : ReleasePath)
    (command : Command) (id : String) (r : RemoveRequest)
    (h : r ∈ release_requests path command id) :
    r.options.force = true ∧ r.options.v = true := by
  cases path <;> cases command <;>
    simp [release_requests, rm_body, drop_async, http_rm] at h <;>
    simp [h, http_rm]

/-- Concrete run of `release_requests_force_and_volumes` on the scope-end
removal under `Remove` policy. -/
theorem release_requests_force_and_volumes_witness :
    (http_rm "c").options.force = true ∧ (http_rm "c").options.v = true :=
  release_requests_force_and_volumes .scopeEnd .Remove "c" (http_rm "c")
    (by simp [release_requests, drop_async])

/-! ## The runnable image and the create request (`Http::run`, http.rs 50-162) -/

/-- `core::WaitFor`, the wait conditions matched in `block_until_ready`. -/
inductive WaitFor where
  | stdOutMessage (message : String)
  | stdErrMessage (message : String)
  | duration (length : Nat)
  | healthcheck
  | nothing
deriving DecidableEq, Repr

/-- `core::Port`: an explicit port mapping. The Rust field `local` (the
host-side port) is spelled `local_port` here because `local` is a Lean
keyword; `internal` is the container-side port. -/
structure Port where
  local_port : Nat
  internal : Nat
deriving DecidableEq, Repr

/-- `bollard::models::PortBinding`; its `Default` leaves both fields unset
(an auto-assigned binding). -/
structure PortBinding where
  host_ip : Option String := none
  host_port : Option String := none
deriving DecidableEq, Repr

/-- `bollard::models::HostConfig`, restricted to the fields `Http::run`
writes; `Default` leaves them all unset. `port_bindings` is bollard's
`PortMap`, a `HashMap` from binding key to binding vector; it is kept here
as a key-unique association list in first-insertion order (a Rust `HashMap`
has no meaningful order, so only the key-value contents carry meaning),
built by `collect_map` below. -/
structure HostConfig where
  shm_size : Option Int := none
  network_mode : Option String := none
  port_bindings : Option (List (String × Option (List PortBinding))) := none
  publish_all_ports : Option Bool := none
deriving DecidableEq, Repr

/-- `bollard::container::CreateContainerOptions`. -/
structure CreateContainerOptions where
  name : String
deriving DecidableEq, Repr

/-- `bollard::container::Config`, restricted to the fields `Http::run`
writes. The `volumes` and `exposed_ports` maps carry unit values in the
source, so only their key lists are kept. -/
structure Config where
  image : Option String := none
  env : Option (List String) := none
  volumes : Option (List String) := none
  entrypoint : Option (List String) := none
  cmd : Option (List String) := none
  exposed_ports : Option (List String) := none
  host_config : Option HostConfig := none
deriving DecidableEq, Repr

/-- One insertion of Rust's `HashMap`: a pair whose key is already present
overwrites the stored value (the key keeps its place); a fresh key is
appended. -/
def map_insert {β : Type} (m : List (String × β)) (kv : String × β) :
    List (String × β) :=
  if m.any (fun p => p.1 == kv.1) then
    m.map (fun p => if p.1 == kv.1 then (p.1, kv.2) else p)
  else
    m ++ [kv]

/-- Rust's `HashMap::from_iter` / `collect()` on a pair iterator: insert
the pairs left to right, a later pair with the same key overwriting the
earlier one — this is what `bindings.collect()` at http.rs line 145 does to
the chained binding iterator. -/
def collect_map {β : Type} (l : List (String × β)) : List (String × β) :=
  l.foldl map_insert []

/-- The Image Descriptor collaborator (spec section 6): the data the
accessors of `RunnableImage` return. `RunnableImage` itself lives outside
the given sources; this record holds exactly what `Http::run` and
`block_until_ready` read through its accessors. -/
structure RunnableImage where
  descriptor : String
  env_vars : List (String × String) := []
  volumes : List (String × String) := []
  entrypoint : Option String := none
  expose_ports : List Nat := []
  ports : Option (List Port) := none
  network : Option String := none
  container_name : Option String := none
  shm_size : Option Nat := none
  args : List String := []
  ready_conditions : List WaitFor := []
deriving DecidableEq, Repr

/-- The request-building part of `Http::run` (http.rs 50-162), translated
step by step: base config with the image descriptor and a default host
config; shared memory; network mode (the registry side effect is modelled
separately by `run_ensure_network`); container name; environment list;
volume keys; entrypoint; exposed ports; the port-binding section (explicit
mappings to host ip "127.0.0.1" with the declared host port, chained with a
default binding per exposed port and collected into a `HashMap` — a later
entry overwriting an earlier one with the same key — when the image
declares either, otherwise `publish_all_ports = true`); and the argument
vector. -/
def build_config (image : RunnableImage) : Option CreateContainerOptions × Config :=
  let config : Config := { image := some image.descriptor, host_config := some {} }
  let config : Config :=
    match image.shm_size with
    | some bytes =>
        { config with
          host_config := config.host_config.map
            (fun (h : HostConfig) => { h with shm_size := some (Int.ofNat bytes) }) }
    | none => config
  let config : Config :=
    match image.network with
    | some network =>
        { config with
          host_config := config.host_config.map
            (fun (h : HostConfig) => { h with network_mode := some network }) }
    | none => config
  let create_options := image.container_name.map (fun n => CreateContainerOptions.mk n)
  let config : Config := { config with env := some (image.env_vars.map (fun kv => kv.1 ++ "=" ++ kv.2)) }
  let config : Config := { config with volumes := some (image.volumes.map (fun od => od.1 ++ ":" ++ od.2)) }
  let config : Config :=
    match image.entrypoint with
    | some entrypoint => { config with entrypoint := some [entrypoint] }
    | none => config
  let config : Config :=
    { config with
      exposed_ports := some (image.expose_ports.map (fun p => toString p ++ "/tcp")) }
  let config : Config :=
    if image.ports.isSome || decide (image.expose_ports.length > 0) then
      let bindings :=
        (image.ports.getD []).map
          (fun p =>
            (toString p.internal ++ "/tcp",
             some [({ host_ip := some "127.0.0.1",
                      host_port := some (toString p.local_port) } : PortBinding)]))
        ++ image.expose_ports.map
            (fun p => (toString p ++ "/tcp", some [({} : PortBinding)]))
      { config with
        host_config := config.host_config.map
          (fun (h : HostConfig) => { h with port_bindings := some (collect_map bindings) }) }
    else
      { config with
        host_config := config.host_config.map
          (fun (h : HostConfig) => { h with publish_all_ports := some true }) }
  let config : Config := if image.args.isEmpty then config else { config with cmd := some image.args }
  (create_options, config)

/-- The host config `build_config` produced (it is always present). -/
def config_host (c : Config) : HostConfig :=
  c.host_config.getD {}

/-- The explicit-mapping half of the chained binding iterator in
`Http::run`: one binding to host ip "127.0.0.1" with the declared host port
per explicit mapping, keyed by the internal port. -/
def explicit_bindings (image : RunnableImage) : List (String × Option (List PortBinding)) :=
  (image.ports.getD []).map
    (fun p =>
      (toString p.internal ++ "/tcp",
       some [({ host_ip := some "127.0.0.1",
                host_port := some (toString p.local_port) } : PortBinding)]))

/-- The exposed-port half of the chained binding iterator: one default
(auto-assigned) binding per purely exposed port. -/
def exposed_bindings (image : RunnableImage) : List (String × Option (List PortBinding)) :=
  image.expose_ports.map (fun p => (toString p ++ "/tcp", some [({} : PortBinding)]))

/-- What `build_config` puts into the host config, as one closed form: the
port section collects the chained bindings into the map exactly when the
image declares explicit mappings or exposed ports, and sets
`publish_all_ports` otherwise. -/
theorem build_config_host (image : RunnableImage) :
    config_host (build_config image).2
      = { shm_size := image.shm_size.map Int.ofNat,
          network_mode := image.network,
          port_bindings :=
            if image.ports.isSome || decide (image.expose_ports.length > 0)
            then some (collect_map (explicit_bindings image ++ exposed_bindings image))
            else none,
          publish_all_ports :=
            if image.ports.isSome || decide (image.expose_ports.length > 0)
            then none
            else some true } := by
  obtain ⟨d, ev, vo, en, ex, po, ne, cn, sh, ar, rc⟩ := image
  cases sh <;> cases ne <;> cases en <;> cases po <;> cases ex <;> cases ar <;>
    simp [build_config, config_host, explicit_bindings, exposed_bindings]

/-- C4: an image declaring neither explicit port mappings nor exposed ports
gets `publish_all_ports = true` and no enumerated bindings; an image
declaring either gets exactly the chained bindings collected into the map,
with `publish_all_ports` left at its unset default (which the engine reads
as false). -/
theorem build_config_publish_all (image : RunnableImage) :
    (image.ports = none ∧ image.expose_ports = [] →
      (config_host (build_config image).2).publish_all_ports = some true
      ∧ (config_host (build_config image).2).port_bindings = none)
  ∧ ((image.ports ≠ none ∨ image.expose_ports ≠ []) →
      (config_host (build_config image).2).port_bindings
        = some (collect_map (explicit_bindings image ++ exposed_bindings image))
      ∧ (config_host (build_config image).2).publish_all_ports = none) := by
  have hh := build_config_host image
  constructor
  · rintro ⟨hp, he⟩
    rw [hh]
    simp [hp, he]
  · intro h
    have hcond : (image.ports.isSome || decide (image.expose_ports.length > 0)) = true := by
      rcases h with h | h
      · simp [Option.isSome_iff_ne_none, h]
      · cases hex : image.expose_ports with
        | nil => exact absurd hex h
        | cons a l => simp [hex]
    rw [hh]
    simp [hcond]

/-- Concrete run of `build_config_publish_all` on an image with no port
declarations at all. -/
theorem build_config_publish_all_witness :
    (config_host (build_config { descriptor := "hello-world" }).2).publish_all_ports
        = some true
    ∧ (config_host (build_config { descriptor := "hello-world" }).2).port_bindings
        = none :=
  (build_config_publish_all { descriptor := "hello-world" }).1 ⟨rfl, rfl⟩

theorem foldl_map_insert_fresh {β : Type} (l : List (String × β)) :
    ∀ acc : List (String × β),
      ((acc.map Prod.fst) ++ (l.map Prod.fst)).Nodup →
      l.foldl map_insert acc = acc ++ l := by
  induction l with
  | nil =>
    intro acc _
    simp
  | cons kv t ih =>
    intro acc h
    have hk : kv.1 ∉ acc.map Prod.fst := by
      rw [List.map_cons, List.nodup_append] at h
      intro hmem
      exact h.2.2 hmem (by simp)
    have hins : map_insert acc kv = acc ++ [kv] := by
      have hany : acc.any (fun p => p.1 == kv.1) = false := by
        rw [List.any_eq_false]
        intro p hp hbeq
        exact hk (eq_of_beq hbeq ▸ List.mem_map_of_mem Prod.fst hp)
      simp [map_insert, hany]
    rw [List.foldl_cons, hins]
    have h2 : (((acc ++ [kv]).map Prod.fst) ++ (t.map Prod.fst)).Nodup := by
      simpa [List.append_assoc] using h
    rw [ih (acc ++ [kv]) h2]
    simp

/-- Collecting a pair list whose keys are pairwise distinct changes
nothing: no entry gets overwritten. -/
theorem collect_map_eq_self {β : Type} (l : List (String × β))
    (h : (l.map Prod.fst).Nodup) : collect_map l = l := by
  have hf := foldl_map_insert_fresh l [] (by simpa using h)
  simpa [collect_map] using hf

/-- An image whose explicit mapping (123→456) has its internal port 456
also among the exposed ports. -/
def overlap_sample : RunnableImage :=
  { descriptor := "hello-world", ports := some [⟨123, 456⟩], expose_ports := [456] }

/-- C5 is false of the program as universally stated: for `overlap_sample`,
whose explicit mapping (123→456) has its internal port also exposed, the
exposed port's auto-assigned entry comes later in the chained iterator and
overwrites the explicit binding when `collect()` builds the `HashMap` —
the create request's binding map holds only the auto-assigned binding under
"456/tcp", and no binding to host ip "127.0.0.1" with the declared host
port "123" survives. -/
theorem build_config_overlap_overwrites :
    (config_host (build_config overlap_sample).2).port_bindings
      = some [("456/tcp", some [({} : PortBinding)])]
  ∧ ¬ (("456/tcp",
        some [({ host_ip := some "127.0.0.1",
                 host_port := some "123" } : PortBinding)])
      ∈ ((config_host (build_config overlap_sample).2).port_bindings.getD [])) := by
  constructor
  · decide
  · decide

/-- C5 (amended): the engine-visible binding map is the chained binding
list — one "internal/tcp" entry per explicit mapping bound to host ip
"127.0.0.1" and the declared host port, then one auto-assigned entry per
exposed port — collected with `HashMap` semantics, a later entry
overwriting an earlier one with the same key. When the binding keys are
pairwise distinct (no explicit internal port repeated or also exposed),
the map is exactly that list and nothing else; for the mappings (123→456)
and (555→888) the binding keys are exactly "456/tcp" and "888/tcp". -/
theorem build_config_explicit_bindings_amended (image : RunnableImage)
    (l : List Port) :
    (image.ports = some l →
      (config_host (build_config image).2).port_bindings
        = some (collect_map (explicit_bindings image ++ exposed_bindings image)))
  ∧ (image.ports = some l →
      ((explicit_bindings image ++ exposed_bindings image).map Prod.fst).Nodup →
      (config_host (build_config image).2).port_bindings
        = some (l.map
              (fun p =>
                (toString p.internal ++ "/tcp",
                 some [({ host_ip := some "127.0.0.1",
                          host_port := some (toString p.local_port) } : PortBinding)]))
            ++ image.expose_ports.map
                (fun p => (toString p ++ "/tcp", some [({} : PortBinding)]))))
  ∧ (image.ports = some [⟨123, 456⟩, ⟨555, 888⟩] → image.expose_ports = [] →
      ((config_host (build_config image).2).port_bindings.getD []).map Prod.fst
        = ["456/tcp", "888/tcp"]) := by
  have hh := build_config_host image
  refine ⟨?_, ?_, ?_⟩
  · intro hp
    rw [hh]
    simp [hp]
  · intro hp hnd
    have h1 : (config_host (build_config image).2).port_bindings
        = some (collect_map (explicit_bindings image ++ exposed_bindings image)) := by
      rw [hh]
      simp [hp]
    rw [h1, collect_map_eq_self _ hnd]
    simp [explicit_bindings, exposed_bindings, hp]
  · intro hp he
    rw [hh]
    simp [hp, he, explicit_bindings, exposed_bindings]
    decide

/-- The image of the C5 claim: explicit mappings (123→456) and (555→888),
nothing else declared. -/
def ports_sample : RunnableImage :=
  { descriptor := "hello-world", ports := some [⟨123, 456⟩, ⟨555, 888⟩] }

/-- Concrete run of `build_config_explicit_bindings_amended` on the image
of the claim: mappings (123→456) and (555→888), no exposed ports. -/
theorem build_config_explicit_bindings_amended_witness :
    ((config_host (build_config ports_sample).2).port_bindings.getD []).map Prod.fst
      = ["456/tcp", "888/tcp"] :=
  (build_config_explicit_bindings_amended ports_sample
      [⟨123, 456⟩, ⟨555, 888⟩]).2.2 rfl rfl

/-! ## Network registry (`Http::create_network_if_not_exists`, `network_exists`,
`impl Drop for Client`) -/

/-- One entry of the engine's network list (`bollard::models::Network`,
restricted to the `name` field matched by `network_exists`). -/
structure Network where
  name : Option String := none
deriving DecidableEq, Repr

/-- The predicate of the `matches!` in `network_exists` (http.rs 269-274):
the entry carries exactly the requested name. -/
def matches_name (network : String) (i : Network) : Bool :=
  match i.name with
  | some name => name == network
  | none => false

/-- `network_exists` (http.rs 269-274): some listed network has exactly the
requested name. -/
def network_exists (networks : List Network) (network : String) : Bool :=
  networks.any (matches_name network)

/-- The state `Http::run` and the registry touch: the engine's network list
and the client's lock-protected `created_networks` vector. -/
structure ClientState where
  engine_networks : List Network
  created_networks : List String
deriving DecidableEq, Repr

/-- `Http::create_network_if_not_exists` (http.rs 225-240): when no network
with the name exists, ask the engine to create it (the engine appends it to
its list) and return `true`; otherwise return `false` and change nothing. -/
def create_network_if_not_exists (st : ClientState) (network : String) :
    Bool × ClientState :=
  if !network_exists st.engine_networks network then
    (true, { st with engine_networks := st.engine_networks ++ [{ name := some network }] })
  else
    (false, st)

/-- The network block of `Http::run` (http.rs 67-81): ensure the network
exists and, exactly when `create_network_if_not_exists` returned `true`,
push the name onto `created_networks` under the lock. Returns the
`create_network_if_not_exists` result alongside the new state. -/
def run_ensure_network (st : ClientState) (network : String) : Bool × ClientState :=
  let r := create_network_if_not_exists st network
  if r.1 then
    (true, { r.2 with created_networks := r.2.created_networks ++ [network] })
  else
    (false, r.2)

/-- C6: `create_network_if_not_exists` creates and records (via its caller
`run`) exactly when no engine network with that name exists, and returns
`false` touching nothing when one does; hence two sequential runs
requesting the same fresh name get `true` then `false`, and the registry
records the name exactly once more. -/
theorem ensure_network_dedup (st : ClientState) (n : String) :
    (network_exists st.engine_networks n = false →
      (run_ensure_network st n).1 = true
      ∧ (run_ensure_network st n).2.created_networks = st.created_networks ++ [n]
      ∧ network_exists (run_ensure_network st n).2.engine_networks n = true)
  ∧ (network_exists st.engine_networks n = true →
      (run_ensure_network st n).1 = false
      ∧ (run_ensure_network st n).2 = st)
  ∧ (network_exists st.engine_networks n = false →
      (run_ensure_network (run_ensure_network st n).2 n).1 = false
      ∧ (run_ensure_network (run_ensure_network st n).2 n).2.created_networks
          = st.created_networks ++ [n]
      ∧ (run_ensure_network (run_ensure_network st n).2 n).2.created_networks.count n
          = st.created_networks.count n + 1) := by
  have hmk : matches_name n { name := some n } = true := by
    simp [matches_name]
  have happ : ∀ l : List Network, network_exists (l ++ [{ name := some n }]) n = true := by
    intro l
    simp [network_exists, List.any_append, hmk]
  have hrun_t : network_exists st.engine_networks n = false →
      run_ensure_network st n
        = (true, { engine_networks := st.engine_networks ++ [{ name := some n }],
                   created_networks := st.created_networks ++ [n] }) := by
    intro h
    simp [run_ensure_network, create_network_if_not_exists, h]
  have hrun_f : ∀ st' : ClientState, network_exists st'.engine_networks n = true →
      run_ensure_network st' n = (false, st') := by
    intro st' h
    simp [run_ensure_network, create_network_if_not_exists, h]
  refine ⟨?_, ?_, ?_⟩
  · intro h
    rw [hrun_t h]
    exact ⟨rfl, rfl, happ _⟩
  · intro h
    rw [hrun_f st h]
    exact ⟨rfl, rfl⟩
  · intro h
    rw [hrun_t h]
    rw [hrun_f _ (happ _)]
    refine ⟨rfl, rfl, ?_⟩
    simp [List.count_append]

/-- Concrete run of `ensure_network_dedup`: two sequential requests for
network "N" against an engine with no networks yet. -/
theorem ensure_network_dedup_witness :
    (run_ensure_network { engine_networks := [], created_networks := [] } "N").1 = true
    ∧ (run_ensure_network
        (run_ensure_network { engine_networks := [], created_networks := [] } "N").2
        "N").1 = false :=
  ⟨((ensure_network_dedup { engine_networks := [], created_networks := [] } "N").1
      rfl).1,
   ((ensure_network_dedup { engine_networks := [], created_networks := [] } "N").2.2
      rfl).1⟩

/-- The engine's `removeNetwork` (spec section 6 external interface, the
engine side of `bollard::Docker::remove_network`): drop the entries with
the given name, failing when no such network exists — the failure the
`unwrap()` in `Drop for Client` turns into a panic. -/
def remove_network (networks : List Network) (network : String) :
    Except String (List Network) :=
  if network_exists networks network then
    .ok (networks.filter (fun i => !matches_name network i))
  else
    .error ("no such network: " ++ network)

/-- `impl Drop for Client` (http.rs 276-288): under `Remove`, iterate the
recorded `created_networks` and remove each from the engine, panicking on
the first failure; under `Keep`, do nothing. Returns the engine's network
list after the sweep. -/
def client_drop (command : Command) (created_networks : List String)
    (engine_networks : List Network) : Except String (List Network) :=
  match command with
  | .Remove => created_networks.foldlM remove_network engine_networks
  | .Keep => .ok engine_networks

theorem foldlM_cons_except {α β : Type} (f : β → α → Except String β) (b : β)
    (a : α) (l : List α) :
    List.foldlM f b (a :: l) = f b a >>= fun b' => List.foldlM f b' l := rfl

theorem network_exists_filter_false (networks : List Network) (p : Network → Bool)
    (m : String) (h : network_exists networks m = false) :
    network_exists (networks.filter p) m = false := by
  simp only [network_exists, List.any_eq_false] at h ⊢
  intro x hx
  exact h x (List.mem_of_mem_filter hx)

theorem remove_network_ok (networks : List Network) (nm : String)
    (h : network_exists networks nm = true) :
    remove_network networks nm
      = .ok (networks.filter (fun i => !matches_name nm i)) := by
  simp [remove_network, h]

theorem remove_network_removes (networks : List Network) (nm : String) :
    network_exists (networks.filter (fun i => !matches_name nm i)) nm = false := by
  simp only [network_exists, List.any_eq_false]
  intro x hx
  have hkeep := List.of_mem_filter hx
  simp at hkeep
  simp [hkeep]

theorem network_exists_keep (networks : List Network) (nm m : String)
    (hne : m ≠ nm) (h : network_exists networks m = true) :
    network_exists (networks.filter (fun i => !matches_name nm i)) m = true := by
  simp only [network_exists, List.any_eq_true] at h ⊢
  obtain ⟨x, hx, hmx⟩ := h
  refine ⟨x, List.mem_filter.mpr ⟨hx, ?_⟩, hmx⟩
  unfold matches_name at hmx ⊢
  cases hxn : x.name with
  | none => rw [hxn] at hmx; exact absurd hmx (by simp)
  | some s =>
    rw [hxn] at hmx
    have hs : s = m := eq_of_beq hmx
    subst hs
    simp [hne]

theorem remove_network_preserves_absent (networks eng' : List Network)
    (nm m : String) (h : network_exists networks m = false)
    (hok : remove_network networks nm = .ok eng') :
    network_exists eng' m = false := by
  unfold remove_network at hok
  split at hok
  · cases hok
    exact network_exists_filter_false networks _ m h
  · cases hok

theorem fold_remove_preserves_absent (created : List String) :
    ∀ (engine eng' : List Network) (m : String),
      network_exists engine m = false →
      List.foldlM remove_network engine created = .ok eng' →
      network_exists eng' m = false := by
  induction created with
  | nil =>
    intro engine eng' m h hf
    have h2 : (Except.ok engine : Except String (List Network)) = .ok eng' := hf
    rw [← Except.ok.inj h2]
    exact h
  | cons a l ih =>
    intro engine eng' m h hf
    rw [foldlM_cons_except] at hf
    cases hr : remove_network engine a with
    | error e =>
      rw [hr] at hf
      have h2 : (Except.error e : Except String (List Network)) = .ok eng' := hf
      exact absurd h2 (by simp)
    | ok eng1 =>
      rw [hr] at hf
      have h2 : List.foldlM remove_network eng1 l = .ok eng' := hf
      exact ih eng1 eng' m (remove_network_preserves_absent engine eng1 a m h hr) h2

theorem fold_remove_clean (created : List String) :
    ∀ engine : List Network, created.Nodup →
      (∀ n ∈ created, network_exists engine n = true) →
      ∃ eng', List.foldlM remove_network engine created = .ok eng'
        ∧ ∀ n ∈ created, network_exists eng' n = false := by
  induction created with
  | nil =>
    intro engine _ _
    exact ⟨engine, rfl, by simp⟩
  | cons a l ih =>
    intro engine hnd hall
    have ha : network_exists engine a = true := hall a (by simp)
    have hr := remove_network_ok engine a ha
    have hna : a ∉ l := (List.nodup_cons.mp hnd).1
    have hall' : ∀ n ∈ l,
        network_exists (engine.filter (fun i => !matches_name a i)) n = true := by
      intro m hm
      exact network_exists_keep engine a m (fun hEq => hna (hEq ▸ hm))
        (hall m (by simp [hm]))
    obtain ⟨eng', hfold, hclean⟩ :=
      ih (engine.filter (fun i => !matches_name a i)) (List.nodup_cons.mp hnd).2 hall'
    refine ⟨eng', ?_, ?_⟩
    · rw [foldlM_cons_except, hr]
      exact hfold
    · intro m hm
      rcases List.mem_cons.mp hm with rfl | hm'
      · exact fold_remove_preserves_absent l _ eng' m (remove_network_removes engine m)
          hfold
      · exact hclean m hm'

/-- C7: network cleanup at client teardown runs only under `Remove` policy.
Under `Keep` the engine's network list is untouched. Under `Remove`, when
the recorded names are distinct and all present, the sweep succeeds and
none of them exists afterwards; a removal failure (here: a recorded network
already gone from the engine) is fatal. -/
theorem client_drop_cleans_networks (created : List String) (engine : List Network)
    (n : String) (rest : List String) :
    (client_drop .Keep created engine = .ok engine)
  ∧ (created.Nodup → (∀ m ∈ created, network_exists engine m = true) →
      ∃ eng', client_drop .Remove created engine = .ok eng'
        ∧ ∀ m ∈ created, network_exists eng' m = false)
  ∧ (network_exists engine n = false →
      client_drop .Remove (n :: rest) engine
        = .error ("no such network: " ++ n)) := by
  refine ⟨rfl, ?_, ?_⟩
  · intro hnd hall
    exact fold_remove_clean created engine hnd hall
  · intro h
    have hr : remove_network engine n = .error ("no such network: " ++ n) := by
      simp [remove_network, h]
    show List.foldlM remove_network engine (n :: rest) = _
    rw [foldlM_cons_except, hr]
    rfl

/-- Concrete run of `client_drop_cleans_networks`: a client that recorded
network "N" sweeps it from an engine holding exactly that network. -/
theorem client_drop_cleans_networks_witness :
    ∃ eng', client_drop .Remove ["N"] [{ name := some "N" }] = .ok eng'
      ∧ ∀ m ∈ ["N"], network_exists eng' m = false :=
  (client_drop_cleans_networks ["N"] [{ name := some "N" }] "N" []).2.1
    (by decide) (by decide)

/-! ## Wait engine (`ContainerAsync::block_until_ready`, container_async.rs 225-273) -/

/-- Modelled from the spec (section 4.2, LogMessage): a line contains the
target substring. -/
def line_contains (line message : String) : Bool :=
  (List.range (line.length + 1)).any (fun i => message.data.isPrefixOf (line.data.drop i))

/-- Modelled from the spec: `LogStreamAsync::wait_for_message`
(`core/logs.rs`, not among the given sources) reads the stream line by line
until a line containing the message appears; the stream ending without a
match is the error the `unwrap()` in `block_until_ready` turns into a
panic. -/
def wait_for_message (lines : List String) (message : String) : Except String Unit :=
  match lines with
  | [] => .error ("Failed to find message in stream")
  | l :: rest =>
    if line_contains l message then .ok () else wait_for_message rest message

/-- The engine-side observations one readiness evaluation can make: the two
log streams (restartable, so each condition reads its stream from the
start) and the successive inspect responses of the health-check poll. -/
structure WaitEnv where
  stdout_lines : List String := []
  stderr_lines : List String := []
  inspect_results : List ContainerInspectResponse := []
deriving Repr

/-- One arm of the `match condition` in `block_until_ready`
(container_async.rs 229-269): log waits `unwrap()` `wait_for_message`,
`Duration` sleeps and succeeds, `Healthcheck` runs the inspect loop,
`Nothing` does nothing. -/
def eval_condition (env : WaitEnv) : WaitFor → Except String Unit
  | .stdOutMessage message => wait_for_message env.stdout_lines message
  | .stdErrMessage message => wait_for_message env.stderr_lines message
  | .duration _ => .ok ()
  | .healthcheck =>
    match healthcheck_wait 0 env.inspect_results with
    | .success _ => .ok ()
    | .fatal _ msg => .error msg
  | .nothing => .ok ()

/-- The `for condition in self.image.ready_conditions()` loop of
`block_until_ready` (container_async.rs 225-273): conditions run in
declared order; the first panic aborts. -/
def block_until_ready (env : WaitEnv) : List WaitFor → Except String Unit
  | [] => .ok ()
  | c :: rest =>
    match eval_condition env c with
    | .ok _ => block_until_ready env rest
    | .error e => .error e

/-- C8: readiness evaluation walks the declared condition list in order —
an empty list succeeds immediately, `Nothing` succeeds immediately, a
failing head condition aborts the whole evaluation with its error no matter
what follows, and a succeeding head condition hands over to the rest of the
list unchanged. -/
theorem block_until_ready_ordered (env : WaitEnv) (c : WaitFor)
    (rest : List WaitFor) (e : String) :
    (block_until_ready env [] = .ok ())
  ∧ (eval_condition env .nothing = .ok ())
  ∧ (eval_condition env c = .error e →
      block_until_ready env (c :: rest) = .error e)
  ∧ (eval_condition env c = .ok () →
      block_until_ready env (c :: rest) = block_until_ready env rest) := by
  refine ⟨rfl, rfl, ?_, ?_⟩
  · intro h
    simp [block_until_ready, h]
  · intro h
    simp [block_until_ready, h]

/-- Concrete run of `block_until_ready_ordered`: a succeeding `Nothing`
head condition reduces the wait to the remaining (empty) list. -/
theorem block_until_ready_ordered_witness :
    block_until_ready {} [WaitFor.nothing] = block_until_ready {} [] :=
  (block_until_ready_ordered {} .nothing [] "").2.2.2 rfl

/-! ## Host-port resolution (`ContainerAsync::get_host_port*`,
container_async.rs 61-115) -/

/-- Modelled from the spec (section 4.3, resolve): `core::ports::Ports`
(`core/ports.rs`, not among the given sources) keeps the live
internal-to-host port maps per address family. -/
structure Ports where
  ipv4_mapping : List (Nat × Nat) := []
  ipv6_mapping : List (Nat × Nat) := []
deriving DecidableEq, Repr

/-- Modelled from the spec: `Ports::map_to_host_port_ipv4` looks the
internal port up in the IPv4 map. -/
def map_to_host_port_ipv4 (ports : Ports) (internal_port : Nat) : Option Nat :=
  ports.ipv4_mapping.lookup internal_port

/-- Modelled from the spec: `Ports::map_to_host_port_ipv6`, the IPv6
counterpart. -/
def map_to_host_port_ipv6 (ports : Ports) (internal_port : Nat) : Option Nat :=
  ports.ipv6_mapping.lookup internal_port

/-- `ContainerAsync::get_host_port_ipv4` (container_async.rs 80-91): the
mapped host port, or the panic of the `unwrap_or_else` when the port is not
mapped. `ports` stands for what `self.docker_client.ports(&self.id)`
returned. -/
def get_host_port_ipv4 (ports : Ports) (id : String) (internal_port : Nat) :
    Except String Nat :=
  match map_to_host_port_ipv4 ports internal_port with
  | some p => .ok p
  | none =>
    .error ("container " ++ id ++ " does not expose port " ++ toString internal_port)

/-- `ContainerAsync::get_host_port_ipv6` (container_async.rs 104-115). -/
def get_host_port_ipv6 (ports : Ports) (id : String) (internal_port : Nat) :
    Except String Nat :=
  match map_to_host_port_ipv6 ports internal_port with
  | some p => .ok p
  | none =>
    .error ("container " ++ id ++ " does not expose port " ++ toString internal_port)

/-- The deprecated `ContainerAsync::get_host_port` (container_async.rs
61-67): its body is exactly a call to `get_host_port_ipv4`. -/
def get_host_port (ports : Ports) (id : String) (internal_port : Nat) :
    Except String Nat :=
  get_host_port_ipv4 ports id internal_port

/-- C9: for every port state, container id and internal port, the
deprecated `get_host_port` returns exactly what `get_host_port_ipv4`
returns — the same host port when mapped, the same panic when not. -/
theorem get_host_port_eq_ipv4 (ports : Ports) (id : String) (internal_port : Nat) :
    get_host_port ports id internal_port = get_host_port_ipv4 ports id internal_port :=
  rfl

end Testcontainers
